import Mathlib

/-!
Verification development for the 01exchange / Lighter cross-venue arbitrage
engine.  The Python sources are shallowly embedded: exact decimals become
rationals, fallible calls become `Except`-valued oracles passed in as
arguments, and each method becomes a pure Lean function mirroring the
control flow of the source line by line.

Venue naming follows the sources: the maker venue M is 01exchange (the
`o1_` family) and the taker venue T is Lighter (the `lighter_` family).
-/

/-- Best bid / best offer snapshot, as produced by `BaseExchangeClient.get_bbo`
(`src/exchanges/base.py`).  Either side may be absent. -/
structure BBO where
  best_bid : Option ℚ
  best_ask : Option ℚ
deriving Repr, DecidableEq

/-! ## PositionTracker (`src/strategy/position_tracker.py`) -/

/-- State of `PositionTracker`: both ledger sides, the configured bounds and
the trade counters. -/
structure PositionTracker where
  max_position : ℚ
  order_quantity : ℚ
  o1_position : ℚ
  lighter_position : ℚ
  total_long_trades : Nat
  total_short_trades : Nat
deriving Repr, DecidableEq

/-- `PositionTracker.net_position` — sum of both sides. -/
def PositionTracker.net_position (t : PositionTracker) : ℚ :=
  t.o1_position + t.lighter_position

/-- `PositionTracker.net_exposure` — absolute value of the net position. -/
def PositionTracker.net_exposure (t : PositionTracker) : ℚ :=
  |t.net_position|

/-- `PositionTracker.can_long_o1` — admission predicate for a long-01 trade. -/
def PositionTracker.can_long_o1 (t : PositionTracker) : Bool :=
  t.o1_position < t.max_position

/-- `PositionTracker.can_short_o1` — admission predicate for a short-01 trade. -/
def PositionTracker.can_short_o1 (t : PositionTracker) : Bool :=
  -t.max_position < t.o1_position

/-- `PositionTracker.update_o1` — one-sided ledger update on the 01 (maker)
side: buy adds the quantity, any other side string subtracts it. -/
def PositionTracker.update_o1 (t : PositionTracker) (side : String) (quantity : ℚ) :
    PositionTracker :=
  if side = "buy" then { t with o1_position := t.o1_position + quantity }
  else { t with o1_position := t.o1_position - quantity }

/-- `PositionTracker.update_lighter` — one-sided ledger update on the Lighter
(taker) side. -/
def PositionTracker.update_lighter (t : PositionTracker) (side : String) (quantity : ℚ) :
    PositionTracker :=
  if side = "buy" then { t with lighter_position := t.lighter_position + quantity }
  else { t with lighter_position := t.lighter_position - quantity }

/-- `PositionTracker.record_arb_trade` — atomic two-sided commit of one
arbitrage leg; any other direction string leaves the state unchanged. -/
def PositionTracker.record_arb_trade (t : PositionTracker) (direction : String)
    (quantity : ℚ) : PositionTracker :=
  if direction = "long_01" then
    { t with
      o1_position := t.o1_position + quantity
      lighter_position := t.lighter_position - quantity
      total_long_trades := t.total_long_trades + 1 }
  else if direction = "short_01" then
    { t with
      o1_position := t.o1_position - quantity
      lighter_position := t.lighter_position + quantity
      total_short_trades := t.total_short_trades + 1 }
  else t

/-- `PositionTracker.check_risk` — returns false (risk exceeded, trading
paused) when the net exposure is above twice the order quantity. -/
def PositionTracker.check_risk (t : PositionTracker) : Bool :=
  if t.net_exposure > t.order_quantity * 2 then false else true

/-! ## SpreadAnalyzer (`src/strategy/spread_analyzer.py`) -/

/-- State of `SpreadAnalyzer` as read by `check_signal`: the warm-up latch,
the most recent differentials and the rolling means (all four are `None`
before the first `update`). -/
structure SpreadAnalyzer where
  warmup_samples : Nat
  long_threshold : ℚ
  short_threshold : ℚ
  sample_count : Nat
  warmed_up : Bool
  last_diff_long : Option ℚ
  last_diff_short : Option ℚ
  avg_long : Option ℚ
  avg_short : Option ℚ
deriving Repr, DecidableEq

/-- `SpreadAnalyzer.check_signal` — exactly the source predicate: long fires
when warmed up and `last_diff_long > avg_long + long_threshold`, short is
only examined when long did not fire.  The source applies no further floor
to either trigger. -/
def SpreadAnalyzer.check_signal (s : SpreadAnalyzer) : Option String × Option ℚ :=
  if s.warmed_up = false then (none, none)
  else
    match s.last_diff_long, s.avg_long with
    | some d, some a =>
      if d > a + s.long_threshold then (some "long_01", some d)
      else
        match s.last_diff_short, s.avg_short with
        | some d2, some a2 =>
          if d2 > a2 + s.short_threshold then (some "short_01", some d2)
          else (none, none)
        | _, _ => (none, none)
    | _, _ =>
      match s.last_diff_short, s.avg_short with
      | some d2, some a2 =>
        if d2 > a2 + s.short_threshold then (some "short_01", some d2)
        else (none, none)
      | _, _ => (none, none)

/-! ## Risk stage of the main loop (`src/strategy/arb_strategy.py`,
`_main_loop_iteration` steps 7 and 7.5) -/

/-- Stop state of `ArbStrategy` (`_stop_flag`, `_stop_reason`). -/
structure StrategyFlags where
  stop_flag : Bool
  stop_reason : String
deriving Repr, DecidableEq

/-- Outcome of the risk stage of one tick. -/
inductive RiskOutcome where
  | pausedRisk
  | divergenceStop
  | proceed
deriving Repr, DecidableEq

/-- Steps 7 and 7.5 of `_main_loop_iteration`: first `check_risk` (pause on
failure), then the divergence test `|net| > 3 * order_quantity`, whose branch
requests a stop with the divergence reason, else fall through to the signal
stage. -/
def risk_stage (pos : PositionTracker) (fl : StrategyFlags) :
    RiskOutcome × StrategyFlags :=
  if pos.check_risk = false then (.pausedRisk, fl)
  else
    let net := |pos.o1_position + pos.lighter_position|
    if net > pos.order_quantity * 3 then
      (.divergenceStop, { stop_flag := true, stop_reason := "position divergence" })
    else (.proceed, fl)

/-! ## String helpers used by the 01 client's error-text inspection -/

/-- Substring containment on strings, used to embed Python's `a in b`. -/
def strContains (s pat : String) : Bool :=
  (List.range (s.toList.length + 1)).any fun i => pat.toList.isPrefixOf (s.toList.drop i)

/-- Lower-casing, used to embed Python's `str.lower()`. -/
def strToLower (s : String) : String :=
  String.mk (s.toList.map Char.toLower)

/-- The not-found test applied by `O1ExchangeClient.cancel_order`
(`src/exchanges/o1_client.py`) to both receipt error text and exception
text. -/
def isNotFoundText (msg : String) : Bool :=
  strContains msg "ORDER_NOT_FOUND" || strContains (strToLower msg) "not found"

/-! ## O1ExchangeClient (`src/exchanges/o1_client.py`) -/

/-- Result of the wire-level cancel action (`_execute_action`): a clean
receipt, a receipt carrying an error message, or a raised exception. -/
inductive CancelAction where
  | receiptOk
  | receiptErr (msg : String)
  | raised (msg : String)
deriving Repr, DecidableEq

/-- `O1ExchangeClient.cancel_order` over the action result.  The source
returns `True` on a clean receipt; on a receipt error it returns `False`
whether or not the text indicates not-found (both branches end in
`return False`); on an exception it returns `False` for not-found text and
re-raises otherwise. -/
def o1_cancel_order (r : CancelAction) : Except String Bool :=
  match r with
  | .receiptOk => .ok true
  | .receiptErr msg =>
    if isNotFoundText msg then .ok false
    else .ok false
  | .raised msg =>
    if isNotFoundText msg then .ok false
    else .error msg

/-- `O1ExchangeClient.get_position` over the outcome of
`_get_account_data`: outer `none` means the account query failed or returned
non-200 (the helper swallows every exception and returns `None`); the inner
option is the signed size of the matching market position when the account
payload lists one. -/
def o1_get_position (account_data : Option (Option ℚ)) : ℚ :=
  match account_data with
  | some (some size) => size
  | some none => 0
  | none => 0

/-- One 01exchange order as assembled by `O1ExchangeClient.place_order`. -/
structure O1Order where
  side : String
  price : ℚ
  size : ℚ
  order_type : String
  reduce_only : Bool
deriving Repr, DecidableEq

/-- `O1ExchangeClient.close_position`: nothing is sent for a zero position;
otherwise an IMMEDIATE_OR_CANCEL order of magnitude `|position|` is sent in
the closing direction, priced off the book with a 0.5 percent cushion, with
`reduce_only` set. -/
def o1_close_position (bbo : BBO) (current_position : ℚ) : Option O1Order :=
  if current_position = 0 then none
  else if current_position > 0 then
    let close_price := match bbo.best_bid with
      | some b => b * (995 / 1000)
      | none => 0
    some { side := "sell", price := close_price, size := |current_position|,
           order_type := "immediate", reduce_only := true }
  else
    let close_price := match bbo.best_ask with
      | some a => a * (1005 / 1000)
      | none => 0
    some { side := "buy", price := close_price, size := |current_position|,
           order_type := "immediate", reduce_only := true }

/-! ## LighterClient (`src/exchanges/lighter_client.py`) -/

/-- `LighterClient.get_position`.  `ws_pos` abstracts the lookup of the
market in the push-fed account cache (`none` when the cache is empty or the
market is absent); `rest` is the authoritative REST read, whose `ok none`
means the account reply listed no such position.  The cache branch is taken
only when the push feed is not stale; on a REST exception the call raises
when the feed is stale and otherwise falls through to zero. -/
def lighter_get_position (ws_stale : Bool) (ws_pos : Option ℚ)
    (rest : Except String (Option ℚ)) : Except String ℚ :=
  match (if ws_stale then none else ws_pos) with
  | some p => .ok p
  | none =>
    match rest with
    | .ok (some p) => .ok p
    | .ok none => .ok 0
    | .error e =>
      if ws_stale then .error ("ws stale and rest failed: " ++ e)
      else .ok 0

/-- `LighterClient.get_balance`, same shape as the position read: cache value
when fresh, otherwise REST; a REST exception raises only when the push feed
is stale, and every other empty outcome degrades to zero. -/
def lighter_get_balance (ws_stale : Bool) (ws_bal : Option ℚ)
    (rest : Except String (Option ℚ)) : Except String ℚ :=
  match (if ws_stale then none else ws_bal) with
  | some b => .ok b
  | none =>
    match rest with
    | .ok (some b) => .ok b
    | .ok none => .ok 0
    | .error e =>
      if ws_stale then .error ("ws stale and rest failed: " ++ e)
      else .ok 0

/-- One Lighter order as assembled by `LighterClient.place_order`. -/
structure LighterOrder where
  side : String
  price : ℚ
  size : ℚ
  order_type : String
  reduce_only : Bool
deriving Repr, DecidableEq

/-- `LighterClient.place_taker_order`: an IOC limit priced
`best_ask * (1 + slippage)` on buys and `best_bid * (1 - slippage)` on
sells; the call hard-codes `reduce_only := false` when forwarding to
`place_order`, and raises when the needed book side is empty. -/
def lighter_place_taker_order (bbo : BBO) (side : String) (size : ℚ)
    (slippage : ℚ) : Except String LighterOrder :=
  if side = "buy" then
    match bbo.best_ask with
    | none => .error "no asks on Lighter, cannot buy"
    | some a =>
      .ok { side := side, price := a * (1 + slippage), size := size,
            order_type := "ioc", reduce_only := false }
  else
    match bbo.best_bid with
    | none => .error "no bids on Lighter, cannot sell"
    | some b =>
      .ok { side := side, price := b * (1 - slippage), size := size,
            order_type := "ioc", reduce_only := false }

/-- `LighterClient.close_position`: nothing for a zero position, otherwise a
taker order of magnitude `|position|` in the closing direction with the
wider shutdown slippage of 0.5 percent. -/
def lighter_close_position (bbo : BBO) (current_position : ℚ) :
    Except String (Option LighterOrder) :=
  if current_position = 0 then .ok none
  else
    let side := if current_position > 0 then "sell" else "buy"
    (lighter_place_taker_order bbo side |current_position| (5 / 1000)).map some

/-! ## OrderManager (`src/strategy/order_manager.py`) -/

/-- `OrderManager._wait_for_o1_fill`.  The non-destructive poll body calls
`self.o1._get_open_orders_from_api`, a method defined nowhere in the
repository, so every poll raises `AttributeError`, which the surrounding
`except` swallows; the fill decision therefore always falls through to the
timeout resolution: a successful cancel means not filled, a `False` from
`cancel_order` is marked FILLED, and a raised exception is a fill only when
its text contains `ORDER_NOT_FOUND` (otherwise nothing is marked and the
result is not-filled). -/
def wait_for_o1_fill (r : CancelAction) : Bool :=
  match o1_cancel_order r with
  | .ok true => false
  | .ok false => true
  | .error msg => if strContains msg "ORDER_NOT_FOUND" then true else false

/-- The trade record assembled at the end of `OrderManager._execute_arb`
(the dict returned to the caller, mirroring the `log_trade` row). -/
structure TradeRecord where
  direction : String
  o1_side : String
  o1_price : ℚ
  lighter_side : String
  lighter_price : ℚ
  size : ℚ
  spread : ℚ
  o1_position : ℚ
  lighter_position : ℚ
deriving Repr, DecidableEq

/-- The venue interactions of one leg of `_execute_arb`, collected as an
oracle: the maker post outcome, the wire result of the timeout cancel, the
pre-hedge Lighter BBO snapshot (`get_ws_bbo`, `none` when the websocket
cache has no book), and the hedge outcome whose payload is the submitted
IOC limit price. -/
structure ArbOracle where
  place_o1 : Except String Unit
  cancel : CancelAction
  hedge_bbo : Option BBO
  hedge : Except String ℚ
deriving Repr

/-- `OrderManager._execute_arb`.  Phase 1 posts on 01 (failure aborts with
`None`); phase 2 is `wait_for_o1_fill`; phase 3 hedges on Lighter — on a
hedge exception only `update_o1` runs and the leg returns `None`.  On hedge
success the estimated fill price is the snapshotted top of book (bid for a
sell hedge, ask for a buy hedge) and the submitted limit price when no
snapshot exists; `record_arb_trade` commits, then the spread is computed
(`estimated - o1_price` for long, reversed for short).  When the snapshot
exists but its needed side is absent the source computes `None - Decimal`,
raising after the ledger commit; this is the `.error` outcome. -/
def execute_arb (direction o1_side : String) (o1_price : ℚ) (lighter_side : String)
    (qty : ℚ) (o : ArbOracle) (pos : PositionTracker) :
    Except String (Option TradeRecord) × PositionTracker :=
  match o.place_o1 with
  | .error _ => (.ok none, pos)
  | .ok _ =>
    if wait_for_o1_fill o.cancel = false then (.ok none, pos)
    else
      match o.hedge with
      | .error _ => (.ok none, pos.update_o1 o1_side qty)
      | .ok submitted =>
        let estimated : Option ℚ :=
          match o.hedge_bbo with
          | some bbo => if lighter_side = "sell" then bbo.best_bid else bbo.best_ask
          | none => some submitted
        let pos2 := pos.record_arb_trade direction qty
        match estimated with
        | none => (.error "TypeError: unsupported operand", pos2)
        | some est =>
          let spread := if direction = "long_01" then est - o1_price else o1_price - est
          (.ok (some { direction := direction, o1_side := o1_side, o1_price := o1_price,
                       lighter_side := lighter_side, lighter_price := est, size := qty,
                       spread := spread, o1_position := pos2.o1_position,
                       lighter_position := pos2.lighter_position }), pos2)

/-- The `OrderManager` state visible to the interlock: the `_executing` flag
and the ledger it mutates. -/
structure OrderManagerState where
  executing : Bool
  positions : PositionTracker
deriving Repr

/-- Result of `execute_long_o1` / `execute_short_o1`: the busy early return
(the source returns `False` without touching anything), or the body's
outcome (a raised exception still propagates after the `finally`). -/
inductive ExecOutcome where
  | busy
  | done (r : Except String (Option TradeRecord))
deriving Repr

/-- `OrderManager.execute_long_o1`: busy check, then `_executing := true`,
the leg with direction `long_01` posting BUY at `o1_ask - tick` and hedging
SELL, and a `finally` that always clears `_executing`. -/
def execute_long_o1 (st : OrderManagerState) (o1_ask _lighter_bid : ℚ)
    (qty tick : ℚ) (o : ArbOracle) : ExecOutcome × OrderManagerState :=
  if st.executing then (.busy, st)
  else
    let r := execute_arb "long_01" "buy" (o1_ask - tick) "sell" qty o st.positions
    (.done r.1, { executing := false, positions := r.2 })

/-- `OrderManager.execute_short_o1`: the mirror leg, posting SELL at
`o1_bid + tick` and hedging BUY. -/
def execute_short_o1 (st : OrderManagerState) (o1_bid _lighter_ask : ℚ)
    (qty tick : ℚ) (o : ArbOracle) : ExecOutcome × OrderManagerState :=
  if st.executing then (.busy, st)
  else
    let r := execute_arb "short_01" "sell" (o1_bid + tick) "buy" qty o st.positions
    (.done r.1, { executing := false, positions := r.2 })

/-! ## Balance check (`src/strategy/arb_strategy.py`, `_check_balances`) -/

/-- The minimum balance floor of `arb_strategy.py`. -/
def MIN_BALANCE : ℚ := 10

/-- The four balance reads a single `_check_balances` call can perform. -/
structure BalanceReads where
  first_o1 : Except String ℚ
  first_lighter : Except String ℚ
  second_o1 : Except String ℚ
  second_lighter : Except String ℚ
deriving Repr

/-- `ArbStrategy._check_balances`: an exception in either first read aborts
the check; if either first reading is below `MIN_BALANCE` both are re-read
after the 3 second pause, an exception there also aborts, and only a second
below-threshold reading trips the stop (the returned pair carries the
confirming balances that go into the insufficient-funds stop reason).
`none` means the stop flag was left untouched. -/
def check_balances (r : BalanceReads) : Option (ℚ × ℚ) :=
  match r.first_o1 with
  | .error _ => none
  | .ok b1 =>
    match r.first_lighter with
    | .error _ => none
    | .ok b2 =>
      if b1 < MIN_BALANCE ∨ b2 < MIN_BALANCE then
        match r.second_o1, r.second_lighter with
        | .ok c1, .ok c2 =>
          if c1 < MIN_BALANCE ∨ c2 < MIN_BALANCE then some (c1, c2) else none
        | _, _ => none
      else none

/-! ## Admitted arbitrage steps (`ArbStrategy._handle_signal` with
`PositionTracker.record_arb_trade`) -/

/-- The fresh tracker built in `ArbStrategy.__init__`: both positions and
both counters start at zero. -/
def initialTracker (maxp qty : ℚ) : PositionTracker :=
  { max_position := maxp, order_quantity := qty, o1_position := 0,
    lighter_position := 0, total_long_trades := 0, total_short_trades := 0 }

/-- One accepted signal admission: `_handle_signal` admits a long (short)
leg only when `can_long_o1` (`can_short_o1`) holds, and the successful leg
commits `record_arb_trade` with the configured order quantity. -/
inductive AdmittedStep : PositionTracker → PositionTracker → Prop where
  | long (t : PositionTracker) (h : t.can_long_o1 = true) :
      AdmittedStep t (t.record_arb_trade "long_01" t.order_quantity)
  | short (t : PositionTracker) (h : t.can_short_o1 = true) :
      AdmittedStep t (t.record_arb_trade "short_01" t.order_quantity)

/-- Claim C2: at every trading tick reaching the risk stage, a ledger sum
beyond three order quantities is claimed to request an immediate shutdown
with the divergence reason.  In the source the divergence branch is
unreachable: whenever `|net| > 3 * qty` the earlier `check_risk` pause
(`|net| > 2 * qty`) already returns from the iteration, so the stop flag is
never set by this stage — shown in general and at the concrete failing
input qty = 0.001, o1 = 0.004, lighter = 0. -/
theorem divergence_tripwire_never_fires :
    (∀ pos fl, (risk_stage pos fl).2 = fl ∧
      ((risk_stage pos fl).1 = RiskOutcome.pausedRisk ∨
        (risk_stage pos fl).1 = RiskOutcome.proceed)) ∧
    (risk_stage
        { max_position := 1/100, order_quantity := 1/1000, o1_position := 1/250,
          lighter_position := 0, total_long_trades := 0, total_short_trades := 0 }
        { stop_flag := false, stop_reason := "user interrupt" }
      = (RiskOutcome.pausedRisk, { stop_flag := false, stop_reason := "user interrupt" }) ∧
     ((1 : ℚ)/1000) * 3 < |(1 : ℚ)/250 + 0|) := by
  constructor
  · intro pos fl
    by_cases h : pos.check_risk = false
    · simp [risk_stage, h]
    · have hle : ¬ pos.net_exposure > pos.order_quantity * 2 := by
        intro hgt
        exact h (by simp [PositionTracker.check_risk, hgt])
      have h3 : ¬ |pos.o1_position + pos.lighter_position| > pos.order_quantity * 3 := by
        intro hgt3
        have habs : (0 : ℚ) ≤ |pos.o1_position + pos.lighter_position| := abs_nonneg _
        have hnet : pos.net_exposure = |pos.o1_position + pos.lighter_position| := rfl
        rw [hnet] at hle
        push_neg at hle
        linarith
      simp [risk_stage, h, h3]
  · constructor
    · have habs : |(1 : ℚ)/250| = 1/250 := abs_of_pos (by norm_num)
      norm_num [risk_stage, PositionTracker.check_risk, PositionTracker.net_exposure,
        PositionTracker.net_position, habs]
    · rw [abs_of_pos (by norm_num)]
      norm_num

/-- Claim C3: the signal is claimed to require
`diff > max(avg + threshold, min_spread)`.  The analyzer has no
`min_spread` at all (its constructor does not even accept the argument that
`ArbStrategy.__init__` passes), and `check_signal` fires on
`diff > avg + threshold` alone: at a warmed-up state with diff_long = -5,
avg_long = -20, long_threshold = 10 and the default min_spread = 0, the code
returns the long signal although -5 does not exceed max(-10, 0). -/
theorem check_signal_ignores_min_spread_floor :
    SpreadAnalyzer.check_signal
        { warmup_samples := 100, long_threshold := 10, short_threshold := 10,
          sample_count := 200, warmed_up := true, last_diff_long := some (-5),
          last_diff_short := some (-100), avg_long := some (-20), avg_short := some 0 }
      = (some "long_01", some (-5)) ∧
    ¬ ((-5 : ℚ) > max ((-20 : ℚ) + 10) 0) := by
  constructor
  · norm_num [SpreadAnalyzer.check_signal]
  · norm_num

/-- Claim C8: the insufficient-funds stop trips exactly when both first
reads succeed, one of them is below the floor, both confirming reads (3 s
later) succeed, and one of those is again below the floor; in particular no
single failed or below-floor reading and no API exception ever sets the
stop flag. -/
theorem balance_stop_requires_second_confirmation (r : BalanceReads) :
    (check_balances r).isSome = true ↔
      ∃ b1 b2 c1 c2, r.first_o1 = .ok b1 ∧ r.first_lighter = .ok b2 ∧
        (b1 < MIN_BALANCE ∨ b2 < MIN_BALANCE) ∧
        r.second_o1 = .ok c1 ∧ r.second_lighter = .ok c2 ∧
        (c1 < MIN_BALANCE ∨ c2 < MIN_BALANCE) := by
  cases h1 : r.first_o1 with
  | error e => simp [check_balances, h1]
  | ok b1 =>
    cases h2 : r.first_lighter with
    | error e => simp [check_balances, h1, h2]
    | ok b2 =>
      by_cases hb : b1 < MIN_BALANCE ∨ b2 < MIN_BALANCE
      · cases h3 : r.second_o1 with
        | error e => simp [check_balances, h1, h2, h3, hb]
        | ok c1 =>
          cases h4 : r.second_lighter with
          | error e => simp [check_balances, h1, h2, h3, h4, hb]
          | ok c2 =>
            by_cases hc : c1 < MIN_BALANCE ∨ c2 < MIN_BALANCE
            · simp [check_balances, h1, h2, h3, h4, hb, hc]
            · simp [check_balances, h1, h2, h3, h4, hb, hc]
      · simp [check_balances, h1, h2, hb]

/-- Claim C1, counterexample: the claim asserts the maker-venue
`get_position` does not return 0 when its account query fails, but
`O1ExchangeClient._get_account_data` swallows every failure into `None` and
`get_position` then returns `Decimal(0)`. -/
theorem maker_position_zero_on_failed_query : o1_get_position none = 0 := rfl

/-- Claim C1, amended: on the taker venue the stale-cache plus failed-REST
combination does raise for both the position and the balance read, as
claimed; on the maker venue, however, a failed account query yields 0 (the
shutdown path compensates by taking the larger magnitude of the API and
local values). -/
theorem failure_position_policy_amended :
    (∀ ws_pos e, lighter_get_position true ws_pos (.error e)
        = .error ("ws stale and rest failed: " ++ e)) ∧
    (∀ ws_bal e, lighter_get_balance true ws_bal (.error e)
        = .error ("ws stale and rest failed: " ++ e)) ∧
    o1_get_position none = 0 ∧
    (∀ q, o1_get_position (some (some q)) = q) := by
  exact ⟨fun _ _ => rfl, fun _ _ => rfl, rfl, fun _ => rfl⟩

/-- Claim C4: a timeout cancel whose receipt carries an error text that does
not indicate not-found is claimed to leave the leg CANCELLED with no hedge.
In the source `cancel_order` collapses such receipts into the same `False`
that encodes ORDER_NOT_FOUND, `_wait_for_o1_fill` marks the order FILLED,
and `_execute_arb` proceeds to hedge and commit the ledger. -/
theorem cancel_receipt_error_treated_as_fill :
    isNotFoundText "SESSION_EXPIRED" = false ∧
    o1_cancel_order (CancelAction.receiptErr "SESSION_EXPIRED") = .ok false ∧
    wait_for_o1_fill (CancelAction.receiptErr "SESSION_EXPIRED") = true ∧
    (execute_arb "long_01" "buy" 95 "sell" 1
        { place_o1 := .ok (), cancel := CancelAction.receiptErr "SESSION_EXPIRED",
          hedge_bbo := some { best_bid := some 100, best_ask := some 101 },
          hedge := .ok (999/10) }
        (initialTracker (1/100) 1)).1
      = .ok (some { direction := "long_01", o1_side := "buy", o1_price := 95,
                    lighter_side := "sell", lighter_price := 100, size := 1,
                    spread := 5, o1_position := 1, lighter_position := -1 }) := by
  refine ⟨by decide, by simp [o1_cancel_order], by decide, ?_⟩
  have hf : wait_for_o1_fill (CancelAction.receiptErr "SESSION_EXPIRED") = true := by decide
  simp [execute_arb, hf, initialTracker, PositionTracker.record_arb_trade]
  norm_num

/-- Claim C5: shutdown closes are claimed to be reduce-only IOCs on both
venues.  The 01 close is (immediate mode with `reduce_only=True`), but the
Lighter close goes through `place_taker_order`, which hard-codes
`reduce_only=False` — shown at position 0.002 against a 100/101 book. -/
theorem shutdown_close_reduce_only_flags :
    lighter_close_position { best_bid := some 100, best_ask := some 101 } (1/500)
      = .ok (some { side := "sell", price := 199/2, size := 1/500,
                    order_type := "ioc", reduce_only := false }) ∧
    o1_close_position { best_bid := some 100, best_ask := some 101 } (-(1/500))
      = some { side := "buy", price := 20301/200, size := 1/500,
               order_type := "immediate", reduce_only := true } := by
  have habs : |(1 : ℚ)/500| = 1/500 := abs_of_pos (by norm_num)
  constructor
  · norm_num [lighter_close_position, lighter_place_taker_order, habs]
    rw [if_neg (by decide : ¬ ("sell" : String) = "buy")]
    rfl
  · norm_num [o1_close_position, habs]

/-- Claim C6, counterexample: a leg that completes while the websocket cache
holds no book for the market (`get_ws_bbo` returns `None`) records the
submitted IOC limit price — here 100 — as the taker fill price, which the
claim says never happens. -/
theorem recorded_hedge_price_uses_submitted_limit :
    (execute_arb "long_01" "buy" 95 "sell" 1
        { place_o1 := .ok (), cancel := CancelAction.receiptErr "ORDER_NOT_FOUND",
          hedge_bbo := none, hedge := .ok 100 }
        (initialTracker (1/100) 1)).1
      = .ok (some { direction := "long_01", o1_side := "buy", o1_price := 95,
                    lighter_side := "sell", lighter_price := 100, size := 1,
                    spread := 5, o1_position := 1, lighter_position := -1 }) := by
  have hf : wait_for_o1_fill (CancelAction.receiptErr "ORDER_NOT_FOUND") = true := by decide
  simp [execute_arb, hf, initialTracker, PositionTracker.record_arb_trade]
  norm_num

/-- Claim C6, amended: when the pre-hedge snapshot exists the recorded taker
price is the snapshotted top of book (best_bid for a sell hedge, best_ask
for a buy hedge) and the spread is `T_estimated - M_price` for long and
`M_price - T_estimated` for short; when no snapshot exists the submitted
IOC limit price is recorded instead. -/
theorem recorded_hedge_price_amended (qty o1_price b a submitted : ℚ)
    (pos : PositionTracker) (c : CancelAction)
    (hfill : wait_for_o1_fill c = true) :
    (execute_arb "long_01" "buy" o1_price "sell" qty
        { place_o1 := .ok (), cancel := c,
          hedge_bbo := some { best_bid := some b, best_ask := some a },
          hedge := .ok submitted } pos).1
      = .ok (some { direction := "long_01", o1_side := "buy", o1_price := o1_price,
                    lighter_side := "sell", lighter_price := b, size := qty,
                    spread := b - o1_price,
                    o1_position := pos.o1_position + qty,
                    lighter_position := pos.lighter_position - qty }) ∧
    (execute_arb "short_01" "sell" o1_price "buy" qty
        { place_o1 := .ok (), cancel := c,
          hedge_bbo := some { best_bid := some b, best_ask := some a },
          hedge := .ok submitted } pos).1
      = .ok (some { direction := "short_01", o1_side := "sell", o1_price := o1_price,
                    lighter_side := "buy", lighter_price := a, size := qty,
                    spread := o1_price - a,
                    o1_position := pos.o1_position - qty,
                    lighter_position := pos.lighter_position + qty }) ∧
    (execute_arb "long_01" "buy" o1_price "sell" qty
        { place_o1 := .ok (), cancel := c, hedge_bbo := none,
          hedge := .ok submitted } pos).1
      = .ok (some { direction := "long_01", o1_side := "buy", o1_price := o1_price,
                    lighter_side := "sell", lighter_price := submitted, size := qty,
                    spread := submitted - o1_price,
                    o1_position := pos.o1_position + qty,
                    lighter_position := pos.lighter_position - qty }) := by
  have h1 : ¬ ("short_01" : String) = "long_01" := by decide
  have h2 : ¬ ("buy" : String) = "sell" := by decide
  refine ⟨?_, ?_, ?_⟩ <;>
    simp [execute_arb, hfill, PositionTracker.record_arb_trade, h1, h2]

/-- Witness for `recorded_hedge_price_amended` at concrete inputs. -/
theorem recorded_hedge_price_amended_witness :
    (execute_arb "long_01" "buy" 10 "sell" 1
        { place_o1 := .ok (), cancel := CancelAction.receiptErr "ORDER_NOT_FOUND",
          hedge_bbo := some { best_bid := some 12, best_ask := some 13 },
          hedge := .ok 99 } (initialTracker 1 1)).1
      = .ok (some { direction := "long_01", o1_side := "buy", o1_price := 10,
                    lighter_side := "sell", lighter_price := 12, size := 1,
                    spread := 12 - 10,
                    o1_position := (initialTracker 1 1).o1_position + 1,
                    lighter_position := (initialTracker 1 1).lighter_position - 1 }) :=
  (recorded_hedge_price_amended 1 10 12 13 99 (initialTracker 1 1)
    (CancelAction.receiptErr "ORDER_NOT_FOUND") (by decide)).1

/-- Claim C7, counterexample: with max_position = 3/2 and order_quantity = 1
two successive long legs are both admitted by `can_long_o1` and committed by
`record_arb_trade`, after which the maker position is 2 > 3/2, breaking the
claimed bound `|m_position| <= max_position`. -/
theorem admission_cap_counterexample :
    Relation.ReflTransGen AdmittedStep (initialTracker (3/2) 1)
      (((initialTracker (3/2) 1).record_arb_trade "long_01" 1).record_arb_trade
        "long_01" 1) ∧
    ¬ (|(((initialTracker (3/2) 1).record_arb_trade "long_01" 1).record_arb_trade
          "long_01" 1).o1_position|
        ≤ (initialTracker (3/2) 1).max_position) := by
  constructor
  · exact Relation.ReflTransGen.tail
      (Relation.ReflTransGen.single
        (AdmittedStep.long (initialTracker (3/2) 1) (by
          norm_num [PositionTracker.can_long_o1, initialTracker])))
      (AdmittedStep.long ((initialTracker (3/2) 1).record_arb_trade "long_01" 1) (by
        norm_num [PositionTracker.can_long_o1, initialTracker,
          PositionTracker.record_arb_trade]))
  · have hval : (((initialTracker (3/2) 1).record_arb_trade "long_01" 1).record_arb_trade
        "long_01" 1).o1_position = 2 := by
      norm_num [initialTracker, PositionTracker.record_arb_trade]
    rw [hval, abs_of_pos (by norm_num)]
    norm_num [initialTracker]

/-- Claim C7, amended: along any run of accepted signal admissions from the
fresh tracker, the maker position stays strictly below
`max_position + order_quantity` in magnitude (the original bound
`|m_position| <= max_position` holds only when max_position is a multiple of
the order quantity). -/
theorem admission_cap_amended (maxp qty : ℚ) (hq : 0 < qty) (hm : 0 ≤ maxp)
    (t : PositionTracker)
    (hreach : Relation.ReflTransGen AdmittedStep (initialTracker maxp qty) t) :
    |t.o1_position| < maxp + qty := by
  have key : t.max_position = maxp ∧ t.order_quantity = qty ∧
      -(maxp + qty) < t.o1_position ∧ t.o1_position < maxp + qty := by
    induction hreach with
    | refl =>
      refine ⟨rfl, rfl, ?_, ?_⟩ <;> simp [initialTracker] <;> linarith
    | tail hab hstep ih =>
      obtain ⟨hmax, hqty, hlo, hhi⟩ := ih
      have hd : ¬ ("short_01" : String) = "long_01" := by decide
      cases hstep with
      | long h =>
        rename_i u
        have hlt : u.o1_position < u.max_position := by
          simpa [PositionTracker.can_long_o1] using h
        rw [hmax] at hlt
        refine ⟨?_, ?_, ?_, ?_⟩ <;>
          simp [PositionTracker.record_arb_trade, hmax, hqty] <;> linarith
      | short h =>
        rename_i u
        have hgt : -u.max_position < u.o1_position := by
          simpa [PositionTracker.can_short_o1] using h
        rw [hmax] at hgt
        refine ⟨?_, ?_, ?_, ?_⟩ <;>
          simp [PositionTracker.record_arb_trade, hmax, hqty, hd] <;> linarith
  exact abs_lt.mpr ⟨key.2.2.1, key.2.2.2⟩

/-- Witness for `admission_cap_amended` at the fresh tracker. -/
theorem admission_cap_amended_witness :
    (0 : ℚ) < 1 ∧ (0 : ℚ) ≤ 1 ∧ |(initialTracker 1 1).o1_position| < 1 + 1 :=
  ⟨by norm_num, by norm_num,
    admission_cap_amended 1 1 (by norm_num) (by norm_num) _ Relation.ReflTransGen.refl⟩

/-- Claim C9: when the maker leg filled and the taker hedge raises, the leg
returns failure with the maker side of the ledger moved by the maker side
of the trade (plus for buy, minus for sell) and nothing else: the taker
position and both trade counters are untouched. -/
theorem hedge_failure_frame (pos : PositionTracker) (qty o1_price : ℚ)
    (bboOpt : Option BBO) (c : CancelAction) (msg : String)
    (hfill : wait_for_o1_fill c = true) :
    (execute_arb "long_01" "buy" o1_price "sell" qty
        { place_o1 := .ok (), cancel := c, hedge_bbo := bboOpt,
          hedge := .error msg } pos)
      = (.ok none, pos.update_o1 "buy" qty) ∧
    (execute_arb "short_01" "sell" o1_price "buy" qty
        { place_o1 := .ok (), cancel := c, hedge_bbo := bboOpt,
          hedge := .error msg } pos)
      = (.ok none, pos.update_o1 "sell" qty) ∧
    (pos.update_o1 "buy" qty).o1_position = pos.o1_position + qty ∧
    (pos.update_o1 "sell" qty).o1_position = pos.o1_position - qty ∧
    (∀ side, (pos.update_o1 side qty).lighter_position = pos.lighter_position ∧
      (pos.update_o1 side qty).total_long_trades = pos.total_long_trades ∧
      (pos.update_o1 side qty).total_short_trades = pos.total_short_trades) := by
  have hside : ¬ ("sell" : String) = "buy" := by decide
  refine ⟨?_, ?_, ?_, ?_, ?_⟩
  · simp [execute_arb, hfill]
  · simp [execute_arb, hfill]
  · simp [PositionTracker.update_o1]
  · simp [PositionTracker.update_o1, hside]
  · intro side
    by_cases h : side = "buy" <;> simp [PositionTracker.update_o1, h]

/-- Witness for `hedge_failure_frame` at concrete inputs. -/
theorem hedge_failure_frame_witness :
    (execute_arb "long_01" "buy" 10 "sell" 1
        { place_o1 := .ok (), cancel := CancelAction.receiptErr "ORDER_NOT_FOUND",
          hedge_bbo := none, hedge := .error "lighter down" } (initialTracker 1 1))
      = (.ok none, (initialTracker 1 1).update_o1 "buy" 1) :=
  (hedge_failure_frame (initialTracker 1 1) 1 10 none
    (CancelAction.receiptErr "ORDER_NOT_FOUND") "lighter down" (by decide)).1

/-- Claim C10: the `_executing` interlock — a call made while a leg is in
flight returns the busy result with the whole state (ledger included)
unchanged, and any call entered from the idle state ends with the flag
cleared again, whether the body returned a record, returned failure, or
raised (the `finally` always runs). -/
theorem executing_interlock (pos : PositionTracker) (p1 p2 q tk : ℚ)
    (o : ArbOracle) :
    execute_long_o1 { executing := true, positions := pos } p1 p2 q tk o
      = (.busy, { executing := true, positions := pos }) ∧
    execute_short_o1 { executing := true, positions := pos } p1 p2 q tk o
      = (.busy, { executing := true, positions := pos }) ∧
    (execute_long_o1 { executing := false, positions := pos } p1 p2 q tk o).2.executing
      = false ∧
    (execute_short_o1 { executing := false, positions := pos } p1 p2 q tk o).2.executing
      = false := by
  refine ⟨rfl, rfl, ?_, ?_⟩ <;> simp [execute_long_o1, execute_short_o1]
